import Mathlib

/-!
Shallow embedding of the JWT token-authority subsystem of the
license-tracker server: `AuthHandler.create_access_token`,
`AuthHandler.verify_token` (src/licensetracker/api/auth.py),
`BlacklistedToken.is_blacklisted` (src/licensetracker/api/models.py),
`logout_view` (src/licensetracker/api/api.py) and
`BearerAuth.authenticate` (src/licensetracker/api/auth.py).

Time is modelled as seconds since the epoch (`Nat`); the 24-hour purge
window of the blacklist is 86400 seconds.  A JWT is modelled abstractly:
either a malformed string, or a payload signed with a key; `jwt.encode`
produces the signed form and `jwt.decode` checks the key and the `exp`
claim exactly in PyJWT's order (signature first, then expiry, where a
token is expired iff `exp ≤ now`).  The payload is an association list
of claims, so the empty claim set `{}` (a falsy Python dict) is
representable.  The database table of `BlacklistedToken` rows is a list
of entries with the `unique=True` constraint on the token column
modelled as insert-if-absent.
-/

/-- A JSON claim value as used in the JWT payloads of this code base:
strings, integers (timestamps, ids) and lists of group names. -/
inductive JValue where
  | str (s : String)
  | nat (n : Nat)
  | list (l : List String)
  deriving DecidableEq, Repr

/-- A JWT payload: a Python dict of claims, as an association list. -/
abbrev Payload := List (String × JValue)

/-- Python `dict.get`: first value bound to the key, if any. -/
def Payload.get (p : Payload) (k : String) : Option JValue :=
  (p.find? (fun kv => kv.1 = k)).map (·.2)

/-- A JWT as transported in the Authorization header: either a string
that does not parse as a JWT at all, or a payload signed with a key. -/
inductive Token where
  | malformed (s : String)
  | signed (payload : Payload) (key : String)
  deriving DecidableEq, Repr

/-- The PyJWT exceptions caught by this code base. -/
inductive JwtError where
  | expiredSignature
  | invalidToken
  deriving DecidableEq, Repr

/-- `jwt.encode(payload, key, algorithm="HS256")`. -/
def jwt_encode (payload : Payload) (key : String) : Token :=
  Token.signed payload key

/-- `jwt.decode(token, key, algorithms=["HS256"])` at current time
`now`: a malformed string or a wrong signing key raises
`InvalidTokenError`; a correctly signed token with an integer `exp`
claim satisfying `exp ≤ now` raises `ExpiredSignatureError` (PyJWT
checks the signature before the expiry); a non-integer `exp` raises a
`DecodeError` (a subclass of `InvalidTokenError`); a payload without an
`exp` claim decodes without any expiry check. -/
def jwt_decode (t : Token) (key : String) (now : Nat) :
    Except JwtError Payload :=
  match t with
  | Token.malformed _ => Except.error JwtError.invalidToken
  | Token.signed p k =>
      if k = key then
        match p.get "exp" with
        | some (JValue.nat e) =>
            if e ≤ now then Except.error JwtError.expiredSignature
            else Except.ok p
        | some _ => Except.error JwtError.invalidToken
        | none => Except.ok p
      else Except.error JwtError.invalidToken

/-- One row of the `BlacklistedToken` table: the revoked token and the
`auto_now_add` timestamp of the insertion. -/
structure BlEntry where
  token : Token
  blacklisted_at : Nat
  deriving DecidableEq, Repr

/-- The `BlacklistedToken` table. -/
abbrev BlacklistDB := List BlEntry

/-- One day in seconds: the `timedelta(days=1)` purge window. -/
def purgeWindow : Nat := 86400

/-- `BlacklistedToken.is_blacklisted(token)` at current time `now`:
first delete every row with `blacklisted_at < now - timedelta(days=1)`
(stated additively to avoid truncated subtraction), then report whether
a row with this token exists.  Returns the updated table and the
answer. -/
def is_blacklisted (db : BlacklistDB) (token : Token) (now : Nat) :
    BlacklistDB × Bool :=
  let purged := db.filter (fun e => ¬ e.blacklisted_at + purgeWindow < now)
  (purged, purged.any (fun e => e.token = token))

/-- A user row of Django's auth_user table, restricted to the fields
read by `create_access_token`, together with the names of the user's
groups in iteration order. -/
structure User where
  id : Nat
  username : String
  email : String
  first_name : String
  last_name : String
  groups : List String
  deriving DecidableEq, Repr

/-- `AuthHandler.create_access_token(user, expiration_minutes)` issued
at current time `now` with signing key `key`: the payload carries the
user's identity fields, the first group name as `role` (defaulting to
`"User"`), the group list, and `exp = now + expiration_minutes`
minutes; the result is the payload signed with the key. -/
def create_access_token (user : User) (expiration_minutes : Nat)
    (now : Nat) (key : String) : Token :=
  let user_groups := user.groups
  let primary_role := user_groups.headD "User"
  let exp_time := now + expiration_minutes * 60
  let payload : Payload :=
    [("user_id", JValue.nat user.id),
     ("username", JValue.str user.username),
     ("email", JValue.str user.email),
     ("first_name", JValue.str user.first_name),
     ("last_name", JValue.str user.last_name),
     ("role", JValue.str primary_role),
     ("groups", JValue.list user_groups),
     ("exp", JValue.nat exp_time)]
  jwt_encode payload key

/-- `AuthHandler.verify_token(token)` at current time `now` with
signing key `key`: first consult (and thereby purge) the blacklist;
a blacklisted token yields `none`; otherwise decode, with every
`ExpiredSignatureError` or `InvalidTokenError` collapsed to `none`.
Returns the updated blacklist table and the optional claim set. -/
def verify_token (db : BlacklistDB) (token : Token) (key : String)
    (now : Nat) : BlacklistDB × Option Payload :=
  let (db', bl) := is_blacklisted db token now
  if bl then (db', none)
  else
    match jwt_decode token key now with
    | Except.ok payload => (db', some payload)
    | Except.error _ => (db', none)

/-- The Authorization header as seen by `logout_view`: absent (or
empty), present but not of the form `Bearer <token>`, or a bearer
token. -/
inductive AuthHeader where
  | noHeader
  | notBearer (s : String)
  | bearer (t : Token)
  deriving DecidableEq, Repr

/-- The HTTP response of `logout_view`. -/
structure LogoutResp where
  status : Nat
  message : String
  deriving DecidableEq, Repr

/-- `BlacklistedToken.objects.create(token=token)` under the
`unique=True` constraint, with the duplicate-row `IntegrityError`
swallowed by the caller: insert a fresh row timestamped `now` unless a
row with this token already exists. -/
def blacklist_insert (db : BlacklistDB) (token : Token) (now : Nat) :
    BlacklistDB :=
  if db.any (fun e => e.token = token) then db
  else db ++ [{ token := token, blacklisted_at := now }]

/-- `logout_view(request)` at current time `now` with signing key
`key`: if the Authorization header is a bearer token, decode it; on
success insert a blacklist row (duplicate insertion is a no-op); an
`ExpiredSignatureError` or `InvalidTokenError` from the decode skips
the insertion.  Every path returns 200 "Successfully logged out".
(The generic database-exception branch of the view has no counterpart
over a pure table.) -/
def logout_view (hdr : AuthHeader) (db : BlacklistDB) (key : String)
    (now : Nat) : BlacklistDB × LogoutResp :=
  match hdr with
  | AuthHeader.bearer t =>
      match jwt_decode t key now with
      | Except.ok _ =>
          (blacklist_insert db t now,
           { status := 200, message := "Successfully logged out" })
      | Except.error _ =>
          (db, { status := 200, message := "Successfully logged out" })
  | _ => (db, { status := 200, message := "Successfully logged out" })

/-- Python truthiness of the result of `verify_token`: `None` and the
empty dict `{}` are falsy, a non-empty dict is truthy. -/
def pyTruthy : Option Payload → Bool
  | none => false
  | some p => ¬ p.isEmpty

/-- `User.objects.get(id=...)`: the unique user with this id, raising
`User.DoesNotExist` (here: `none`) otherwise; `decoded.get('user_id')`
may also be absent or non-integer, in which case no user matches. -/
def user_get (users : List User) (uid : Option JValue) : Option User :=
  match uid with
  | some (JValue.nat i) => users.find? (fun u => u.id = i)
  | _ => none

/-- `BearerAuth.authenticate(request, token)` at current time `now`:
verify the token; `if decoded:` tests Python truthiness of the decoded
payload, so `None` and the empty dict both fall through to `None`;
otherwise look the user up by the `user_id` claim, mapping
`User.DoesNotExist` to `None`. -/
def authenticate (users : List User) (db : BlacklistDB) (token : Token)
    (key : String) (now : Nat) : BlacklistDB × Option User :=
  let (db', decoded) := verify_token db token key now
  if pyTruthy decoded then
    match decoded with
    | some p => (db', user_get users (p.get "user_id"))
    | none => (db', none)
  else (db', none)

/-! ## Computation lemmas for `jwt_decode` -/

/-- A correctly signed token whose integer `exp` claim lies in the
future decodes to its payload. -/
theorem jwt_decode_signed_ok (p : Payload) (key : String) (now e : Nat)
    (hget : p.get "exp" = some (JValue.nat e)) (h : ¬ e ≤ now) :
    jwt_decode (Token.signed p key) key now = Except.ok p := by
  simp only [jwt_decode, if_pos rfl, hget]
  rw [if_neg h, if_pos trivial]

/-- A correctly signed token whose integer `exp` claim has passed
decodes to `ExpiredSignatureError`. -/
theorem jwt_decode_signed_expired (p : Payload) (key : String) (now e : Nat)
    (hget : p.get "exp" = some (JValue.nat e)) (h : e ≤ now) :
    jwt_decode (Token.signed p key) key now =
      Except.error JwtError.expiredSignature := by
  simp only [jwt_decode, if_pos rfl, hget]
  rw [if_pos h, if_pos trivial]

/-- A correctly signed token without an `exp` claim decodes to its
payload with no expiry check. -/
theorem jwt_decode_no_exp (p : Payload) (key : String) (now : Nat)
    (hget : p.get "exp" = none) :
    jwt_decode (Token.signed p key) key now = Except.ok p := by
  simp only [jwt_decode, if_pos rfl, hget]
  rw [if_pos trivial]

/-- The payload issued by `create_access_token`, exposed as an
equation. -/
theorem create_access_token_eq (user : User) (ttl now : Nat) (key : String) :
    create_access_token user ttl now key =
      Token.signed
        [("user_id", JValue.nat user.id),
         ("username", JValue.str user.username),
         ("email", JValue.str user.email),
         ("first_name", JValue.str user.first_name),
         ("last_name", JValue.str user.last_name),
         ("role", JValue.str (user.groups.headD "User")),
         ("groups", JValue.list user.groups),
         ("exp", JValue.nat (now + ttl * 60))] key := rfl

/-- `logout_view` on a bearer token that decodes successfully inserts
into the blacklist and reports success. -/
theorem logout_view_decode_ok (t : Token) (db : BlacklistDB) (key : String)
    (now : Nat) (q : Payload) (hq : jwt_decode t key now = Except.ok q) :
    logout_view (AuthHeader.bearer t) db key now =
      (blacklist_insert db t now,
       { status := 200, message := "Successfully logged out" }) := by
  simp only [logout_view, hq]

/-- Inserting a token with no row in the table appends a fresh row. -/
theorem blacklist_insert_of_not_mem (db : BlacklistDB) (t : Token) (now : Nat)
    (h : ∀ e ∈ db, e.token ≠ t) :
    blacklist_insert db t now = db ++ [{ token := t, blacklisted_at := now }] := by
  have hany : db.any (fun e => e.token = t) = false := by
    simp only [List.any_eq_false, decide_eq_true_eq]
    exact h
  simp [blacklist_insert, hany]

/-- Inserting a token that already has a row is a no-op. -/
theorem blacklist_insert_of_mem (db : BlacklistDB) (t : Token) (now : Nat)
    (e : BlEntry) (he : e ∈ db) (het : e.token = t) :
    blacklist_insert db t now = db := by
  have hany : db.any (fun x => x.token = t) = true := by
    simp only [List.any_eq_true, decide_eq_true_eq]
    exact ⟨e, he, het⟩
  simp [blacklist_insert, hany]

/-! ## Theorems about the claims -/

/-- C5: for every Authorization header value — absent, not bearer,
malformed token, bad signature, expired token, valid token, or
already-blacklisted token — `logout_view` returns the 200 success
acknowledgment; logout never reports failure to the caller. -/
theorem logout_always_succeeds (hdr : AuthHeader) (db : BlacklistDB)
    (key : String) (now : Nat) :
    (logout_view hdr db key now).2 =
      { status := 200, message := "Successfully logged out" } := by
  cases hdr with
  | bearer t =>
      simp only [logout_view]
      cases jwt_decode t key now <;> rfl
  | noHeader => rfl
  | notBearer s => rfl

/-- C8: two issuance calls for the same principal and ttl at different
current times produce different tokens (the embedded `exp` differs). -/
theorem create_access_token_time_injective (P : User) (ttl : Nat)
    (now₁ now₂ : Nat) (key : String) (hne : now₁ ≠ now₂) :
    create_access_token P ttl now₁ key ≠ create_access_token P ttl now₂ key := by
  simp only [create_access_token, jwt_encode, Token.signed.injEq, ne_eq]
  intro h
  have hexp := h.1
  simp only [List.cons.injEq, Prod.mk.injEq, JValue.nat.injEq, and_true,
    true_and] at hexp
  omega

/-- C8 witness at concrete inputs. -/
theorem create_access_token_time_injective_witness :
    (0 : Nat) ≠ 1 ∧
      create_access_token ⟨1, "u", "e", "f", "l", []⟩ 5 0 "k" ≠
        create_access_token ⟨1, "u", "e", "f", "l", []⟩ 5 1 "k" :=
  ⟨by decide, create_access_token_time_injective ⟨1, "u", "e", "f", "l", []⟩
    5 0 1 "k" (by decide)⟩

/-- C9: issuance is deterministic — two principals with the same field
values and group list, the same ttl, the same current time and the same
key yield the identical token; there is no nonce or randomness. -/
theorem create_access_token_deterministic (P Q : User) (ttl now : Nat)
    (key : String) (hid : P.id = Q.id) (hu : P.username = Q.username)
    (he : P.email = Q.email) (hf : P.first_name = Q.first_name)
    (hl : P.last_name = Q.last_name) (hg : P.groups = Q.groups) :
    create_access_token P ttl now key = create_access_token Q ttl now key := by
  simp only [create_access_token, jwt_encode, hid, hu, he, hf, hl, hg]

/-- C9 witness at concrete inputs. -/
theorem create_access_token_deterministic_witness :
    create_access_token ⟨1, "u", "e", "f", "l", ["G"]⟩ 5 0 "k" =
      create_access_token ⟨1, "u", "e", "f", "l", ["G"]⟩ 5 0 "k" :=
  create_access_token_deterministic ⟨1, "u", "e", "f", "l", ["G"]⟩
    ⟨1, "u", "e", "f", "l", ["G"]⟩ 5 0 "k" rfl rfl rfl rfl rfl rfl

/-- C3: verifying a freshly issued token (current time unchanged, token
not blacklisted) succeeds and the returned claim set carries the
issuing principal's id under `user_id`. -/
theorem verify_of_create (P : User) (ttl now : Nat) (key : String)
    (db : BlacklistDB) (httl : 0 < ttl)
    (hbl : (is_blacklisted db (create_access_token P ttl now key) now).2 = false) :
    ∃ p, (verify_token db (create_access_token P ttl now key) key now).2 = some p ∧
      p.get "user_id" = some (JValue.nat P.id) := by
  refine ⟨[("user_id", JValue.nat P.id),
        ("username", JValue.str P.username),
        ("email", JValue.str P.email),
        ("first_name", JValue.str P.first_name),
        ("last_name", JValue.str P.last_name),
        ("role", JValue.str (P.groups.headD "User")),
        ("groups", JValue.list P.groups),
        ("exp", JValue.nat (now + ttl * 60))], ?_, rfl⟩
  have hdec : jwt_decode (create_access_token P ttl now key) key now =
      Except.ok [("user_id", JValue.nat P.id),
        ("username", JValue.str P.username),
        ("email", JValue.str P.email),
        ("first_name", JValue.str P.first_name),
        ("last_name", JValue.str P.last_name),
        ("role", JValue.str (P.groups.headD "User")),
        ("groups", JValue.list P.groups),
        ("exp", JValue.nat (now + ttl * 60))] := by
    rw [create_access_token_eq]
    exact jwt_decode_signed_ok _ _ _ _ rfl (by omega)
  simp only [verify_token, is_blacklisted] at hbl ⊢
  simp only [hbl, if_false, Bool.false_eq_true]
  rw [hdec]

/-- C3 witness at concrete inputs. -/
theorem verify_of_create_witness :
    (0 : Nat) < 5 ∧
      (is_blacklisted [] (create_access_token ⟨1, "u", "e", "f", "l", []⟩ 5 0 "k") 0).2 = false ∧
      ∃ p, (verify_token [] (create_access_token ⟨1, "u", "e", "f", "l", []⟩ 5 0 "k") "k" 0).2 = some p ∧
        p.get "user_id" = some (JValue.nat 1) :=
  ⟨by decide, by decide,
    verify_of_create ⟨1, "u", "e", "f", "l", []⟩ 5 0 "k" [] (by decide) (by decide)⟩

/-- C6: `verify_token` returns the single invalid sentinel `none`
exactly on the failure paths — blacklisted, expired, malformed or bad
signature (the two PyJWT exception classes caught) — and returns
`some p` exactly when the token is not blacklisted and decodes to `p`;
no other outcome exists. -/
theorem verify_token_uniform_sentinel (db : BlacklistDB) (token : Token)
    (key : String) (now : Nat) :
    ((verify_token db token key now).2 = none ↔
      ((is_blacklisted db token now).2 = true ∨
        jwt_decode token key now = Except.error JwtError.expiredSignature ∨
        jwt_decode token key now = Except.error JwtError.invalidToken)) ∧
    ∀ p, ((verify_token db token key now).2 = some p ↔
      ((is_blacklisted db token now).2 = false ∧
        jwt_decode token key now = Except.ok p)) := by
  rcases hbl : is_blacklisted db token now with ⟨db1, b⟩
  cases b
  · rcases hd : jwt_decode token key now with e | p
    · cases e <;> simp [verify_token, hbl, hd]
    · simp [verify_token, hbl, hd]
  · rcases hd : jwt_decode token key now with e | p
    · cases e <;> simp [verify_token, hbl, hd]
    · simp [verify_token, hbl, hd]

/-- C10: a correctly signed, non-blacklisted token carrying the empty
claim set verifies successfully to the empty claim set, yet
`BearerAuth.authenticate` returns no user, because `if decoded:` tests
Python truthiness and the empty dict is falsy. -/
theorem verify_empty_payload_authenticate_none (key : String)
    (db : BlacklistDB) (now : Nat) (users : List User)
    (hbl : (is_blacklisted db (Token.signed [] key) now).2 = false) :
    (verify_token db (Token.signed [] key) key now).2 = some [] ∧
    (authenticate users db (Token.signed [] key) key now).2 = none := by
  have hdec : jwt_decode (Token.signed ([] : Payload) key) key now =
      Except.ok [] := jwt_decode_no_exp _ _ _ rfl
  rcases hblp : is_blacklisted db (Token.signed [] key) now with ⟨db1, b⟩
  rw [hblp] at hbl
  simp only at hbl
  subst hbl
  constructor
  · simp [verify_token, hblp, hdec]
  · simp [authenticate, verify_token, hblp, hdec, pyTruthy]

/-- C10 witness at concrete inputs. -/
theorem verify_empty_payload_authenticate_none_witness :
    (is_blacklisted [] (Token.signed [] "k") 0).2 = false ∧
    (verify_token [] (Token.signed [] "k") "k" 0).2 = some [] ∧
    (authenticate [] [] (Token.signed [] "k") "k" 0).2 = none := by
  refine ⟨by decide, ?_⟩
  exact verify_empty_payload_authenticate_none "k" [] 0 [] (by decide)

/-- A table in which every row for this token is older than 24 hours
reports the token as not blacklisted (the purge removes the rows before
the membership check). -/
theorem is_blacklisted_snd_false (db : BlacklistDB) (token : Token)
    (now : Nat)
    (h : ∀ e ∈ db, e.token = token → e.blacklisted_at + purgeWindow < now) :
    (is_blacklisted db token now).2 = false := by
  simp only [is_blacklisted]
  simp only [List.any_eq_false, List.mem_filter, decide_eq_true_eq,
    decide_not, Bool.not_eq_true', decide_eq_false_iff_not]
  rintro e ⟨he, hkeep⟩ heq
  exact hkeep (h e he heq)

/-- A table holding a row for this token at most 24 hours old reports
the token as blacklisted. -/
theorem is_blacklisted_snd_true (db : BlacklistDB) (token : Token)
    (now : Nat) (e : BlEntry) (he : e ∈ db) (het : e.token = token)
    (hfresh : ¬ e.blacklisted_at + purgeWindow < now) :
    (is_blacklisted db token now).2 = true := by
  simp only [is_blacklisted]
  simp only [List.any_eq_true, List.mem_filter, decide_eq_true_eq,
    decide_not, Bool.not_eq_true', decide_eq_false_iff_not]
  exact ⟨e, ⟨he, hfresh⟩, het⟩

/-- `verify_token` yields the invalid sentinel on a blacklisted
token. -/
theorem verify_token_snd_of_blacklisted (db : BlacklistDB) (token : Token)
    (key : String) (now : Nat)
    (h : (is_blacklisted db token now).2 = true) :
    (verify_token db token key now).2 = none := by
  rcases hb : is_blacklisted db token now with ⟨db1, b⟩
  rw [hb] at h
  simp only at h
  subst h
  simp [verify_token, hb]

/-- `verify_token` yields the decoded claim set on a non-blacklisted
token that decodes successfully. -/
theorem verify_token_snd_of_ok (db : BlacklistDB) (token : Token)
    (key : String) (now : Nat) (p : Payload)
    (hbl : (is_blacklisted db token now).2 = false)
    (hd : jwt_decode token key now = Except.ok p) :
    (verify_token db token key now).2 = some p := by
  rcases hb : is_blacklisted db token now with ⟨db1, b⟩
  rw [hb] at hbl
  simp only at hbl
  subst hbl
  simp [verify_token, hb, hd]

/-- C1: a token that is correctly signed and unexpired both at logout
time and at verification time, freshly recorded in the blacklist by a
successful logout, is rejected by `verify_token` (the `none` sentinel)
as long as the blacklist entry is at most 24 hours old at verification
time. -/
theorem revoked_token_verifies_invalid (p : Payload) (key : String)
    (db : BlacklistDB) (tL tV : Nat)
    (hvalidL : jwt_decode (Token.signed p key) key tL = Except.ok p)
    (hvalidV : jwt_decode (Token.signed p key) key tV = Except.ok p)
    (hnew : ∀ e ∈ db, e.token ≠ Token.signed p key)
    (hage : tV ≤ tL + purgeWindow) :
    (logout_view (AuthHeader.bearer (Token.signed p key)) db key tL).2.status
        = 200 ∧
    (verify_token
      (logout_view (AuthHeader.bearer (Token.signed p key)) db key tL).1
      (Token.signed p key) key tV).2 = none := by
  rw [logout_view_decode_ok _ _ _ _ _ hvalidL,
    blacklist_insert_of_not_mem _ _ _ hnew]
  refine ⟨rfl, ?_⟩
  apply verify_token_snd_of_blacklisted
  apply is_blacklisted_snd_true _ _ _
    (⟨Token.signed p key, tL⟩ : BlEntry)
  · simp
  · rfl
  · simp only
    omega

/-- C1 witness at concrete inputs: token expiring at time 1000, revoked
at time 0, verified at time 50. -/
theorem revoked_token_verifies_invalid_witness :
    jwt_decode (Token.signed [("exp", JValue.nat 1000)] "k") "k" 0 =
      Except.ok [("exp", JValue.nat 1000)] ∧
    jwt_decode (Token.signed [("exp", JValue.nat 1000)] "k") "k" 50 =
      Except.ok [("exp", JValue.nat 1000)] ∧
    (∀ e ∈ ([] : BlacklistDB),
      e.token ≠ Token.signed [("exp", JValue.nat 1000)] "k") ∧
    50 ≤ 0 + purgeWindow ∧
    ((logout_view
        (AuthHeader.bearer (Token.signed [("exp", JValue.nat 1000)] "k"))
        [] "k" 0).2.status = 200 ∧
      (verify_token
        (logout_view
          (AuthHeader.bearer (Token.signed [("exp", JValue.nat 1000)] "k"))
          [] "k" 0).1
        (Token.signed [("exp", JValue.nat 1000)] "k") "k" 50).2 = none) :=
  ⟨by rfl, by rfl, by decide, by decide,
    revoked_token_verifies_invalid [("exp", JValue.nat 1000)] "k" [] 0 50
      (by rfl) (by rfl) (by decide) (by decide)⟩

/-- C2: when every blacklist entry for a token is more than 24 hours
old at verification time, the lazy purge removes it before the
membership check, so a still-unexpired, correctly signed,
previously revoked token verifies as valid again. -/
theorem stale_blacklist_entry_verifies_again (p : Payload) (key : String)
    (db : BlacklistDB) (now : Nat)
    (hold : ∀ e ∈ db, e.token = Token.signed p key →
      e.blacklisted_at + purgeWindow < now)
    (hwas : ∃ e ∈ db, e.token = Token.signed p key)
    (hvalid : jwt_decode (Token.signed p key) key now = Except.ok p) :
    (verify_token db (Token.signed p key) key now).2 = some p :=
  verify_token_snd_of_ok db _ key now p
    (is_blacklisted_snd_false db _ now hold) hvalid

/-- C2 witness at concrete inputs: entry recorded at time 0, verified
at time 100000 (more than 24 hours later), token expiring at 200000. -/
theorem stale_blacklist_entry_verifies_again_witness :
    (∀ e ∈ [(⟨Token.signed [("exp", JValue.nat 200000)] "k", 0⟩ : BlEntry)],
      e.token = Token.signed [("exp", JValue.nat 200000)] "k" →
        e.blacklisted_at + purgeWindow < 100000) ∧
    (∃ e ∈ [(⟨Token.signed [("exp", JValue.nat 200000)] "k", 0⟩ : BlEntry)],
      e.token = Token.signed [("exp", JValue.nat 200000)] "k") ∧
    jwt_decode (Token.signed [("exp", JValue.nat 200000)] "k") "k" 100000 =
      Except.ok [("exp", JValue.nat 200000)] ∧
    (verify_token [⟨Token.signed [("exp", JValue.nat 200000)] "k", 0⟩]
      (Token.signed [("exp", JValue.nat 200000)] "k") "k" 100000).2 =
        some [("exp", JValue.nat 200000)] :=
  ⟨by decide, by decide, by rfl,
    stale_blacklist_entry_verifies_again [("exp", JValue.nat 200000)] "k"
      [⟨Token.signed [("exp", JValue.nat 200000)] "k", 0⟩] 100000
      (by decide) (by decide) (by rfl)⟩

/-- C7: revoking a valid token twice in succession returns success
both times, and afterwards the blacklist holds exactly one row for the
token: the duplicate insertion is a no-op, not an error. -/
theorem revoke_twice_single_entry (p : Payload) (key : String)
    (db : BlacklistDB) (t1 t2 : Nat)
    (hv1 : jwt_decode (Token.signed p key) key t1 = Except.ok p)
    (hv2 : jwt_decode (Token.signed p key) key t2 = Except.ok p)
    (hnew : ∀ e ∈ db, e.token ≠ Token.signed p key) :
    (logout_view (AuthHeader.bearer (Token.signed p key)) db key t1).2.status
        = 200 ∧
    (logout_view (AuthHeader.bearer (Token.signed p key))
      (logout_view (AuthHeader.bearer (Token.signed p key)) db key t1).1
      key t2).2.status = 200 ∧
    ((logout_view (AuthHeader.bearer (Token.signed p key))
      (logout_view (AuthHeader.bearer (Token.signed p key)) db key t1).1
      key t2).1.filter
        (fun e => e.token = Token.signed p key)).length = 1 := by
  rw [logout_view_decode_ok _ _ _ _ _ hv1,
    blacklist_insert_of_not_mem _ _ _ hnew]
  simp only
  rw [logout_view_decode_ok _ _ _ _ _ hv2,
    blacklist_insert_of_mem _ _ _ (⟨Token.signed p key, t1⟩ : BlEntry)
      (by simp) rfl]
  refine ⟨trivial, rfl, ?_⟩
  rw [List.filter_append]
  have h1 : db.filter (fun e => e.token = Token.signed p key) = [] := by
    simp only [List.filter_eq_nil_iff, decide_eq_true_eq]
    exact hnew
  rw [h1]
  simp

/-- C7 witness at concrete inputs: token expiring at 1000, revoked at
times 0 and 1. -/
theorem revoke_twice_single_entry_witness :
    jwt_decode (Token.signed [("exp", JValue.nat 1000)] "k") "k" 0 =
      Except.ok [("exp", JValue.nat 1000)] ∧
    jwt_decode (Token.signed [("exp", JValue.nat 1000)] "k") "k" 1 =
      Except.ok [("exp", JValue.nat 1000)] ∧
    (∀ e ∈ ([] : BlacklistDB),
      e.token ≠ Token.signed [("exp", JValue.nat 1000)] "k") ∧
    ((logout_view
        (AuthHeader.bearer (Token.signed [("exp", JValue.nat 1000)] "k"))
        [] "k" 0).2.status = 200 ∧
      (logout_view
        (AuthHeader.bearer (Token.signed [("exp", JValue.nat 1000)] "k"))
        (logout_view
          (AuthHeader.bearer (Token.signed [("exp", JValue.nat 1000)] "k"))
          [] "k" 0).1 "k" 1).2.status = 200 ∧
      ((logout_view
        (AuthHeader.bearer (Token.signed [("exp", JValue.nat 1000)] "k"))
        (logout_view
          (AuthHeader.bearer (Token.signed [("exp", JValue.nat 1000)] "k"))
          [] "k" 0).1 "k" 1).1.filter
          (fun e => e.token = Token.signed [("exp", JValue.nat 1000)] "k")).length
        = 1) :=
  ⟨by rfl, by rfl, by decide,
    revoke_twice_single_entry [("exp", JValue.nat 1000)] "k" [] 0 1
      (by rfl) (by rfl) (by decide)⟩

/-- C4 counterexample: a well-formed token signed by this authority
with expiry 100, presented to logout at time 200, yields the success
acknowledgment but the blacklist stays empty — no entry is inserted,
contrary to the claim. -/
theorem logout_expired_no_insert_cex :
    (logout_view
      (AuthHeader.bearer (Token.signed [("exp", JValue.nat 100)] "k"))
      [] "k" 200).2 =
        { status := 200, message := "Successfully logged out" } ∧
    (logout_view
      (AuthHeader.bearer (Token.signed [("exp", JValue.nat 100)] "k"))
      [] "k" 200).1 = [] :=
  ⟨rfl, rfl⟩

/-- C4 (amended): logout with a well-formed, correctly signed but
already-expired bearer token returns the success acknowledgment, and
the blacklist is left unchanged — the `ExpiredSignatureError` branch
skips the insertion. -/
theorem logout_expired_skips_insert (p : Payload) (key : String)
    (db : BlacklistDB) (now : Nat)
    (hexp : jwt_decode (Token.signed p key) key now =
      Except.error JwtError.expiredSignature) :
    logout_view (AuthHeader.bearer (Token.signed p key)) db key now =
      (db, { status := 200, message := "Successfully logged out" }) := by
  simp only [logout_view, hexp]

/-- C4 amended-claim witness at concrete inputs. -/
theorem logout_expired_skips_insert_witness :
    jwt_decode (Token.signed [("exp", JValue.nat 100)] "k") "k" 200 =
      Except.error JwtError.expiredSignature ∧
    logout_view
      (AuthHeader.bearer (Token.signed [("exp", JValue.nat 100)] "k"))
      [] "k" 200 =
        ([], { status := 200, message := "Successfully logged out" }) :=
  ⟨by rfl,
    logout_expired_skips_insert [("exp", JValue.nat 100)] "k" [] 200 (by rfl)⟩
